import Mathlib

/-!
Shallow embedding of the invoice element of the Exact Online REST API
library (file exactonline/elements/invoice.py, class ExactInvoice).

The Python code is an abstract class whose getters are supplied by a
subclass; here an invoice is a record holding the values those getters
return.  The external API collaborator (self._api) is a record of
functions, and every remote call made by assemble() / commit() is logged
in an explicit event trace, so that claims about how many calls happen
and in which order become statements about the trace.

Python decimals are modelled exactly: a Dec is an integer mantissa with
a number of decimal places, and decStr renders it the way str(Decimal)
does for plain (non-scientific) decimals, with no floating point
anywhere.  Exceptions (ObjectDoesNotExist, ExactOnlineError,
NotImplementedError) become an error type returned in Except.
-/

namespace EO

/-- A calendar date (Python datetime.date): year, month, day. -/
structure Date where
  year : Nat
  month : Nat
  day : Nat
deriving DecidableEq, Repr

/-- An exact decimal number: mantissa times 10 to the minus places.
Models Python Decimal values as used for monetary amounts. -/
structure Dec where
  mantissa : Int
  places : Nat
deriving DecidableEq, Repr

/-- Zero-pad a natural to two digits, as strftime does for month and day. -/
def pad2 (n : Nat) : String :=
  if n < 10 then "0" ++ toString n else toString n

/-- Exact decimal rendering, as str() of a Python Decimal with
non-positive exponent: sign, integer digits, and a fractional part of
exactly Dec.places digits when places is positive. -/
def decStr (d : Dec) : String :=
  let sign := if d.mantissa < 0 then "-" else ""
  let ds := toString d.mantissa.natAbs
  if d.places = 0 then
    sign ++ ds
  else if ds.length ≤ d.places then
    sign ++ "0." ++ String.mk (List.replicate (d.places - ds.length) '0') ++ ds
  else
    sign ++ ds.take (ds.length - d.places) ++ "." ++ ds.drop (ds.length - d.places)

/-- strftime of a date, pattern %Y-%m-%dT%H:%M:%SZ: on a date the time
fields are all zero, so this is the date at midnight with a literal Z. -/
def entryDateStr (d : Date) : String :=
  toString d.year ++ "-" ++ pad2 d.month ++ "-" ++ pad2 d.day ++ "T00:00:00Z"

/-- strftime of a date, pattern %m-%Y (used in the description string). -/
def monthYearStr (d : Date) : String :=
  pad2 d.month ++ "-" ++ toString d.year

/-- One ledger line as returned by get_ledger_lines(). -/
structure LedgerLine where
  code : String
  vat_percentage : Int
  total_amount_excl_vat : Dec
  description : String
deriving DecidableEq, Repr

/-- The customer collaborator.  guid_first is what its first get_guid()
call yields (none models an ObjectDoesNotExist failure); guid_second is
what a get_guid() call after customer.commit() yields. -/
structure Customer where
  name : String
  guid_first : Option String
  guid_second : Option String
deriving DecidableEq, Repr

/-- The invoice: one field per abstract getter of ExactInvoice. -/
structure ExactInvoice where
  invoice_number : String
  created_date : Date
  total_amount_incl_vat : Dec
  total_vat : Dec
  exact_journal : String
  ledger_lines : List LedgerLine
  customer : Customer
  hint_exact_invoice_number : String
deriving DecidableEq, Repr

/-- One line of the SalesEntryLines collection of the request payload. -/
structure SalesEntryLine where
  AmountDC : String
  AmountFC : String
  Description : String
  GLAccount : String
  VATCode : String
deriving DecidableEq, Repr

/-- The request payload assembled by assemble(). -/
structure Payload where
  AmountDC : String
  AmountFC : String
  EntryDate : String
  Customer : String
  Description : String
  Journal : String
  ReportingPeriod : Nat
  ReportingYear : Nat
  SalesEntryLines : List SalesEntryLine
  VATAmountDC : String
  VATAmountFC : String
  YourRef : String
  InvoiceNumber : String
deriving DecidableEq, Repr

/-- The payload after data.pop of SalesEntryLines: every field of
Payload except the line collection (the update path sends this). -/
structure HeaderPayload where
  AmountDC : String
  AmountFC : String
  EntryDate : String
  Customer : String
  Description : String
  Journal : String
  ReportingPeriod : Nat
  ReportingYear : Nat
  VATAmountDC : String
  VATAmountFC : String
  YourRef : String
  InvoiceNumber : String
deriving DecidableEq, Repr

/-- data.pop of SalesEntryLines: keep every other field. -/
def Payload.strip (p : Payload) : HeaderPayload :=
  { AmountDC := p.AmountDC
    AmountFC := p.AmountFC
    EntryDate := p.EntryDate
    Customer := p.Customer
    Description := p.Description
    Journal := p.Journal
    ReportingPeriod := p.ReportingPeriod
    ReportingYear := p.ReportingYear
    VATAmountDC := p.VATAmountDC
    VATAmountFC := p.VATAmountFC
    YourRef := p.YourRef
    InvoiceNumber := p.InvoiceNumber }

/-- A record returned by invoices.get: its EntryID value, which in
Python can be a GUID string, the empty string, or None. -/
structure InvoiceRec where
  EntryID : Option String
deriving DecidableEq, Repr

/-- A record returned by ledgeraccounts.filter: ledger Code and ID. -/
structure LedgerRec where
  Code : String
  ID : String
deriving DecidableEq, Repr

/-- The exceptions that assemble() / commit() can raise. -/
inductive AsmError where
  | objectDoesNotExist : AsmError
  | exactOnlineError : String → AsmError
  | notImplementedError : String → AsmError
deriving DecidableEq, Repr

/-- The remote calls and warnings that occur, in order. -/
inductive Event where
  | invoicesGet : String → Event
  | customerCommit : Event
  | ledgerFilter : List String → Event
  | invoicesCreate : Payload → Event
  | invoicesUpdate : String → HeaderPayload → Event
  | warned : String → Event
deriving DecidableEq, Repr

/-- The API collaborator.  invoices_get returning none models an
ObjectDoesNotExist failure of invoices.get.  The results of create and
update are opaque to this code, so their type is a parameter. -/
structure Api (ρ : Type) where
  invoices_get : String → Option InvoiceRec
  ledgeraccounts_filter : List String → List LedgerRec
  invoices_create : Payload → ρ
  invoices_update : String → HeaderPayload → ρ

/-- The distinct ledger codes in first-occurrence order: the set built
by set(i.code for i in ledger_lines), fixed to a canonical order. -/
def dedupFirst : List String → List String
  | [] => []
  | c :: cs => c :: (dedupFirst cs).filter (fun x => x ≠ c)

/-- The dict built from the filter result: dict((Code, ID) for each
record), where a later record with the same Code overwrites an earlier
one; lookup of a missing key is none (a KeyError in Python). -/
def dictLookup (rs : List LedgerRec) (c : String) : Option String :=
  match rs.reverse.find? (fun r => r.Code = c) with
  | some r => some r.ID
  | none => none

/-- The warning text emitted on the update path of commit(). -/
def warnMsg : String := "PUT of SalesEntry SalesEntryLines is not supported yet!"

/-- The body of the ledger-line loop of assemble(): resolve the code to
a ledger GUID (KeyError becomes ExactOnlineError), map the VAT
percentage to the hardcoded VATCode (anything outside 0 and 21 raises
NotImplementedError), and build the line mapping. -/
def processLine (lookup : String → Option String) (l : LedgerLine) :
    Except AsmError SalesEntryLine :=
  match lookup l.code with
  | none =>
    Except.error (AsmError.exactOnlineError
      ("Cannot submit invoice with ledger code " ++ l.code))
  | some ledger_id =>
    if l.vat_percentage = 0 then
      Except.ok
        { AmountDC := decStr l.total_amount_excl_vat
          AmountFC := decStr l.total_amount_excl_vat
          Description := l.description
          GLAccount := ledger_id
          VATCode := "0  " }
    else if l.vat_percentage = 21 then
      Except.ok
        { AmountDC := decStr l.total_amount_excl_vat
          AmountFC := decStr l.total_amount_excl_vat
          Description := l.description
          GLAccount := ledger_id
          VATCode := "2  " }
    else
      Except.error (AsmError.notImplementedError
        ("Unknown VAT: " ++ toString l.vat_percentage))

/-- The ledger-line loop: process the lines in order, stopping at the
first exception. -/
def processLines (lookup : String → Option String) :
    List LedgerLine → Except AsmError (List SalesEntryLine)
  | [] => Except.ok []
  | l :: ls =>
    match processLine lookup l with
    | Except.error e => Except.error e
    | Except.ok s =>
      match processLines lookup ls with
      | Except.error e => Except.error e
      | Except.ok ss => Except.ok (s :: ss)

/-- Customer resolution in assemble(): try customer.get_guid(); on
ObjectDoesNotExist call customer.commit() and get_guid() again (a
second failure propagates). -/
def customerResolve (c : Customer) : Except AsmError String × List Event :=
  match c.guid_first with
  | some g => (Except.ok g, [])
  | none =>
    match c.guid_second with
    | some g => (Except.ok g, [Event.customerCommit])
    | none => (Except.error AsmError.objectDoesNotExist, [Event.customerCommit])

/-- The data dict built by assemble() before the line loop: monetary
amounts as exact decimal strings, the midnight entry date, reporting
period and year from the created date, and an empty line collection. -/
def basePayload (inv : ExactInvoice) (customer_guid : String) : Payload :=
  { AmountDC := decStr inv.total_amount_incl_vat
    AmountFC := decStr inv.total_amount_incl_vat
    EntryDate := entryDateStr inv.created_date
    Customer := customer_guid
    Description := inv.invoice_number ++ " - " ++ inv.customer.name ++ ", " ++
      monthYearStr inv.created_date
    Journal := inv.exact_journal
    ReportingPeriod := inv.created_date.month
    ReportingYear := inv.created_date.year
    SalesEntryLines := []
    VATAmountDC := decStr inv.total_vat
    VATAmountFC := decStr inv.total_vat
    YourRef := inv.invoice_number
    InvoiceNumber := inv.hint_exact_invoice_number }

/-- The distinct codes of the invoice's ledger lines, as passed to the
ledgeraccounts.filter call. -/
def filterCodes (inv : ExactInvoice) : List String :=
  dedupFirst (inv.ledger_lines.map LedgerLine.code)

/-- The code-to-GUID lookup assemble() builds for this invoice from the
single batched filter call. -/
def lookupOf {ρ : Type} (api : Api ρ) (inv : ExactInvoice) : String → Option String :=
  dictLookup (api.ledgeraccounts_filter (filterCodes inv))

/-- ExactInvoice.assemble(): resolve the customer, build the data dict,
and when there are ledger lines perform one batched
ledgeraccounts.filter call and process each line; returns the raised
exception or the payload, together with the trace of remote calls. -/
def assemble {ρ : Type} (api : Api ρ) (inv : ExactInvoice) :
    Except AsmError Payload × List Event :=
  match customerResolve inv.customer with
  | (Except.error e, ev) => (Except.error e, ev)
  | (Except.ok customer_guid, ev) =>
    let data := basePayload inv customer_guid
    match inv.ledger_lines with
    | [] => (Except.ok data, ev)
    | _ :: _ =>
      match processLines (lookupOf api inv) inv.ledger_lines with
      | Except.error e => (Except.error e, ev ++ [Event.ledgerFilter (filterCodes inv)])
      | Except.ok ls =>
        (Except.ok { data with SalesEntryLines := ls },
         ev ++ [Event.ledgerFilter (filterCodes inv)])

/-- The exact_guid commit() resolves: invoices.get by invoice number
(none on ObjectDoesNotExist), then the record's EntryID value. -/
def resolveGuid {ρ : Type} (api : Api ρ) (inv : ExactInvoice) : Option String :=
  match api.invoices_get inv.invoice_number with
  | none => none
  | some r => r.EntryID

/-- Python truthiness of the resolved guid: None and the empty string
are falsy, any other string is truthy. -/
def guidTruthy : Option String → Bool
  | none => false
  | some s => !(s = "")

/-- ExactInvoice.commit(): resolve the exact_guid (NotFound becomes
None), call assemble() unconditionally, then either update (truthy
guid: pop SalesEntryLines, invoices.update, warn) or create (full
payload), returning the collaborator's result and the call trace. -/
def commit {ρ : Type} (api : Api ρ) (inv : ExactInvoice) :
    Except AsmError ρ × List Event :=
  let exact_guid := resolveGuid api inv
  match assemble api inv with
  | (Except.error e, ev) =>
    (Except.error e, Event.invoicesGet inv.invoice_number :: ev)
  | (Except.ok data, ev) =>
    match exact_guid with
    | some g =>
      if g = "" then
        (Except.ok (api.invoices_create data),
         Event.invoicesGet inv.invoice_number ::
           (ev ++ [Event.invoicesCreate data]))
      else
        (Except.ok (api.invoices_update g data.strip),
         Event.invoicesGet inv.invoice_number ::
           (ev ++ [Event.invoicesUpdate g data.strip, Event.warned warnMsg]))
    | none =>
      (Except.ok (api.invoices_create data),
       Event.invoicesGet inv.invoice_number ::
         (ev ++ [Event.invoicesCreate data]))

/-- Count of invoices.create calls in a trace. -/
def countCreate (ev : List Event) : Nat :=
  ev.countP (fun e => match e with | Event.invoicesCreate _ => true | _ => false)

/-- Count of invoices.update calls in a trace. -/
def countUpdate (ev : List Event) : Nat :=
  ev.countP (fun e => match e with | Event.invoicesUpdate _ _ => true | _ => false)

/-- Count of warnings in a trace. -/
def countWarn (ev : List Event) : Nat :=
  ev.countP (fun e => match e with | Event.warned _ => true | _ => false)

/-- Count of customer.commit calls in a trace. -/
def countCustomerCommit (ev : List Event) : Nat :=
  ev.countP (fun e => match e with | Event.customerCommit => true | _ => false)

/-- Count of ledgeraccounts.filter calls in a trace. -/
def countFilter (ev : List Event) : Nat :=
  ev.countP (fun e => match e with | Event.ledgerFilter _ => true | _ => false)

end EO

namespace EO

/-- 121.00 as an exact decimal. -/
def dIncl : Dec := { mantissa := 12100, places := 2 }

/-- 21.00 as an exact decimal. -/
def dVat : Dec := { mantissa := 2100, places := 2 }

/-- 100.00 as an exact decimal. -/
def dExcl : Dec := { mantissa := 10000, places := 2 }

/-- A customer whose remote record already exists. -/
def cust7 : Customer := { name := "ACME", guid_first := some "CUST-GUID", guid_second := none }

/-- The concrete invoice of the specification example. -/
def inv7 : ExactInvoice :=
  { invoice_number := "INV-001"
    created_date := { year := 2024, month := 3, day := 15 }
    total_amount_incl_vat := dIncl
    total_vat := dVat
    exact_journal := "70"
    ledger_lines :=
      [{ code := "1234", vat_percentage := 21,
         total_amount_excl_vat := dExcl, description := "Goods" }]
    customer := cust7
    hint_exact_invoice_number := "INV-001" }

/-- An API in which the invoice is not yet remote and ledger code 1234
resolves to GUID GL-1234. -/
def api7 : Api Unit :=
  { invoices_get := fun _ => none
    ledgeraccounts_filter := fun _ => [{ Code := "1234", ID := "GL-1234" }]
    invoices_create := fun _ => ()
    invoices_update := fun _ _ => () }

/-- The payload assemble() produces for the example invoice. -/
def p7 : Payload :=
  { AmountDC := "121.00"
    AmountFC := "121.00"
    EntryDate := "2024-03-15T00:00:00Z"
    Customer := "CUST-GUID"
    Description := "INV-001 - ACME, 03-2024"
    Journal := "70"
    ReportingPeriod := 3
    ReportingYear := 2024
    SalesEntryLines :=
      [{ AmountDC := "100.00", AmountFC := "100.00", Description := "Goods",
         GLAccount := "GL-1234", VATCode := "2  " }]
    VATAmountDC := "21.00"
    VATAmountFC := "21.00"
    YourRef := "INV-001"
    InvoiceNumber := "INV-001" }

lemma assemble7 : assemble api7 inv7 = (Except.ok p7, [Event.ledgerFilter ["1234"]]) := by
  rfl

end EO

namespace EO

lemma processLine_ok_spec {lookup : String → Option String} {l : LedgerLine}
    {s : SalesEntryLine} (h : processLine lookup l = Except.ok s) :
    lookup l.code = some s.GLAccount ∧
    s.AmountDC = decStr l.total_amount_excl_vat ∧
    s.AmountFC = decStr l.total_amount_excl_vat ∧
    s.Description = l.description ∧
    ((l.vat_percentage = 0 ∧ s.VATCode = "0  ") ∨
     (l.vat_percentage = 21 ∧ s.VATCode = "2  ")) := by
  unfold processLine at h
  split at h
  next => exact Except.noConfusion h
  next g hg =>
    split at h
    next hv =>
      injection h with h
      subst h
      exact ⟨hg, rfl, rfl, rfl, Or.inl ⟨hv, rfl⟩⟩
    next hv =>
      split at h
      next hv21 =>
        injection h with h
        subst h
        exact ⟨hg, rfl, rfl, rfl, Or.inr ⟨hv21, rfl⟩⟩
      next => exact Except.noConfusion h

lemma processLine_ok_of {lookup : String → Option String} {l : LedgerLine} {g : String}
    (hg : lookup l.code = some g)
    (hv : l.vat_percentage = 0 ∨ l.vat_percentage = 21) :
    ∃ s, processLine lookup l = Except.ok s := by
  unfold processLine
  rw [hg]
  dsimp only
  rcases eq_or_ne l.vat_percentage 0 with h0 | h0
  · rw [if_pos h0]
    exact ⟨_, rfl⟩
  · rw [if_neg h0, if_pos (hv.resolve_left h0)]
    exact ⟨_, rfl⟩

lemma processLine_code_missing {lookup : String → Option String} {l : LedgerLine}
    (hg : lookup l.code = none) :
    processLine lookup l =
      Except.error (AsmError.exactOnlineError
        ("Cannot submit invoice with ledger code " ++ l.code)) := by
  unfold processLine
  rw [hg]

lemma processLine_bad_vat {lookup : String → Option String} {l : LedgerLine} {g : String}
    (hg : lookup l.code = some g)
    (h0 : l.vat_percentage ≠ 0) (h21 : l.vat_percentage ≠ 21) :
    processLine lookup l =
      Except.error (AsmError.notImplementedError
        ("Unknown VAT: " ++ toString l.vat_percentage)) := by
  unfold processLine
  rw [hg]
  dsimp only
  rw [if_neg h0, if_neg h21]

lemma processLines_length {lookup : String → Option String} :
    ∀ {ls : List LedgerLine} {out : List SalesEntryLine},
      processLines lookup ls = Except.ok out → out.length = ls.length
  | [], out, h => by
    unfold processLines at h
    injection h with h
    subst h
    rfl
  | l :: ls, out, h => by
    unfold processLines at h
    split at h
    next => exact Except.noConfusion h
    next s hs =>
      split at h
      next => exact Except.noConfusion h
      next ss hss =>
        injection h with h
        subst h
        simp [processLines_length hss]

lemma processLines_get {lookup : String → Option String} :
    ∀ {ls : List LedgerLine} {out : List SalesEntryLine},
      processLines lookup ls = Except.ok out →
      ∀ (i : Nat) (hi : i < ls.length) (ho : i < out.length),
        processLine lookup (ls.get ⟨i, hi⟩) = Except.ok (out.get ⟨i, ho⟩)
  | [], out, h, i, hi, ho => absurd hi (by simp)
  | l :: ls, out, h, i, hi, ho => by
    unfold processLines at h
    split at h
    next => exact Except.noConfusion h
    next s hs =>
      split at h
      next => exact Except.noConfusion h
      next ss hss =>
        injection h with h
        subst h
        match i with
        | 0 => exact hs
        | Nat.succ j =>
          exact processLines_get hss j (Nat.lt_of_succ_lt_succ hi)
            (Nat.lt_of_succ_lt_succ ho)

lemma processLines_mem {lookup : String → Option String} :
    ∀ {ls : List LedgerLine} {out : List SalesEntryLine},
      processLines lookup ls = Except.ok out →
      ∀ l ∈ ls, ∃ s, processLine lookup l = Except.ok s
  | [], out, h, l, hl => absurd hl (by simp)
  | x :: ls, out, h, l, hl => by
    unfold processLines at h
    split at h
    next => exact Except.noConfusion h
    next s hs =>
      split at h
      next => exact Except.noConfusion h
      next ss hss =>
        rcases List.mem_cons.mp hl with hx | hx
        · subst hx
          exact ⟨s, hs⟩
        · exact processLines_mem hss l hx

lemma processLines_fail_at {lookup : String → Option String}
    {pre : List LedgerLine} {l : LedgerLine} {rest : List LedgerLine}
    (hpre : ∀ x ∈ pre, (lookup x.code).isSome ∧
      (x.vat_percentage = 0 ∨ x.vat_percentage = 21))
    (hl : lookup l.code = none) :
    processLines lookup (pre ++ l :: rest) =
      Except.error (AsmError.exactOnlineError
        ("Cannot submit invoice with ledger code " ++ l.code)) := by
  induction pre with
  | nil =>
    rw [List.nil_append]
    unfold processLines
    rw [processLine_code_missing hl]
  | cons x xs ih =>
    have hx := hpre x (by simp)
    rcases Option.isSome_iff_exists.mp hx.1 with ⟨g, hg⟩
    rcases processLine_ok_of hg hx.2 with ⟨s, hs⟩
    have hxs : ∀ y ∈ xs, (lookup y.code).isSome ∧
        (y.vat_percentage = 0 ∨ y.vat_percentage = 21) :=
      fun y hy => hpre y (by simp [hy])
    rw [List.cons_append]
    unfold processLines
    rw [hs]
    dsimp only
    rw [ih hxs]

end EO

namespace EO

lemma customerResolve_first {c : Customer} {g : String} (h : c.guid_first = some g) :
    customerResolve c = (Except.ok g, []) := by
  unfold customerResolve
  rw [h]

lemma customerResolve_second {c : Customer} {g : String}
    (h1 : c.guid_first = none) (h2 : c.guid_second = some g) :
    customerResolve c = (Except.ok g, [Event.customerCommit]) := by
  unfold customerResolve
  rw [h1]
  dsimp only
  rw [h2]

lemma customerResolve_fail {c : Customer}
    (h1 : c.guid_first = none) (h2 : c.guid_second = none) :
    customerResolve c = (Except.error AsmError.objectDoesNotExist, [Event.customerCommit]) := by
  unfold customerResolve
  rw [h1]
  dsimp only
  rw [h2]

lemma customerResolve_ok_cases {c : Customer} {g : String} {cev : List Event}
    (h : customerResolve c = (Except.ok g, cev)) :
    (c.guid_first = some g ∧ cev = []) ∨
    (c.guid_first = none ∧ c.guid_second = some g ∧ cev = [Event.customerCommit]) := by
  unfold customerResolve at h
  split at h
  next g0 hg0 =>
    injection h with h1 h2
    injection h1 with h1
    subst h1
    exact Or.inl ⟨hg0, h2.symm⟩
  next hg0 =>
    split at h
    next g0 hg1 =>
      injection h with h1 h2
      injection h1 with h1
      subst h1
      exact Or.inr ⟨hg0, hg1, h2.symm⟩
    next => exact absurd (congrArg Prod.fst h) (by simp)

lemma customerResolve_events (c : Customer) :
    (customerResolve c).2 = [] ∨ (customerResolve c).2 = [Event.customerCommit] := by
  unfold customerResolve
  rcases c.guid_first with _ | g
  · rcases c.guid_second with _ | g
    · exact Or.inr rfl
    · exact Or.inr rfl
  · exact Or.inl rfl

/-- Characterization of a successful assemble() run. -/
lemma assemble_ok_cases {ρ : Type} {api : Api ρ} {inv : ExactInvoice}
    {p : Payload} {ev : List Event}
    (h : assemble api inv = (Except.ok p, ev)) :
    ∃ cg cev, customerResolve inv.customer = (Except.ok cg, cev) ∧
      ((inv.ledger_lines = [] ∧ p = basePayload inv cg ∧ ev = cev) ∨
       (inv.ledger_lines ≠ [] ∧
        ∃ ls, processLines (lookupOf api inv) inv.ledger_lines = Except.ok ls ∧
          p = { basePayload inv cg with SalesEntryLines := ls } ∧
          ev = cev ++ [Event.ledgerFilter (filterCodes inv)])) := by
  unfold assemble at h
  split at h
  next e cev heq => exact absurd (congrArg Prod.fst h) (by simp)
  next cg cev heq =>
    refine ⟨cg, cev, heq, ?_⟩
    split at h
    next hnil =>
      injection h with h1 h2
      injection h1 with h1
      exact Or.inl ⟨hnil, h1.symm, h2.symm⟩
    next x xs hcons =>
      split at h
      next => exact absurd (congrArg Prod.fst h) (by simp)
      next ls hls =>
        injection h with h1 h2
        injection h1 with h1
        exact Or.inr ⟨by rw [hcons]; simp, ls, hls, h1.symm, h2.symm⟩

/-- Characterization of a failing assemble() run. -/
lemma assemble_error_cases {ρ : Type} {api : Api ρ} {inv : ExactInvoice}
    {e : AsmError} {ev : List Event}
    (h : assemble api inv = (Except.error e, ev)) :
    (customerResolve inv.customer = (Except.error e, ev)) ∨
    (∃ cg cev, customerResolve inv.customer = (Except.ok cg, cev) ∧
      inv.ledger_lines ≠ [] ∧
      processLines (lookupOf api inv) inv.ledger_lines = Except.error e ∧
      ev = cev ++ [Event.ledgerFilter (filterCodes inv)]) := by
  unfold assemble at h
  split at h
  next e0 cev heq =>
    injection h with h1 h2
    injection h1 with h1
    subst h1
    subst h2
    exact Or.inl heq
  next cg cev heq =>
    split at h
    next => exact absurd (congrArg Prod.fst h) (by simp)
    next x xs hcons =>
      split at h
      next e0 hls =>
        injection h with h1 h2
        injection h1 with h1
        subst h1
        exact Or.inr ⟨cg, cev, heq, by rw [hcons]; simp, hls, h2.symm⟩
      next => exact absurd (congrArg Prod.fst h) (by simp)

lemma mem_dedupFirst {c : String} : ∀ {ls : List String}, c ∈ dedupFirst ls ↔ c ∈ ls
  | [] => Iff.rfl
  | x :: xs => by
    unfold dedupFirst
    rcases eq_or_ne c x with h | h
    · subst h
      simp
    · simp only [List.mem_cons, List.mem_filter]
      constructor
      · rintro (h1 | ⟨h1, _⟩)
        · exact Or.inl h1
        · exact Or.inr (mem_dedupFirst.mp h1)
      · rintro (h1 | h1)
        · exact Or.inl h1
        · exact Or.inr ⟨mem_dedupFirst.mpr h1, by simp [h]⟩

lemma dedupFirst_nodup : ∀ (ls : List String), (dedupFirst ls).Nodup
  | [] => List.nodup_nil
  | x :: xs => by
    unfold dedupFirst
    refine List.Nodup.cons ?_ (List.Nodup.filter _ (dedupFirst_nodup xs))
    intro hx
    rcases List.mem_filter.mp hx with ⟨_, hne⟩
    simp at hne

end EO

namespace EO

lemma assemble_ev_shape {ρ : Type} {api : Api ρ} {inv : ExactInvoice}
    {r : Except AsmError Payload} {ev : List Event}
    (h : assemble api inv = (r, ev)) :
    ev = (customerResolve inv.customer).2 ∨
    ev = (customerResolve inv.customer).2 ++ [Event.ledgerFilter (filterCodes inv)] := by
  unfold assemble at h
  split at h
  next e cev heq =>
    injection h with h1 h2
    subst h2
    rw [heq]
    exact Or.inl rfl
  next cg cev heq =>
    split at h
    next =>
      injection h with h1 h2
      subst h2
      rw [heq]
      exact Or.inl rfl
    next =>
      split at h
      next e0 hls =>
        injection h with h1 h2
        subst h2
        rw [heq]
        exact Or.inr rfl
      next ls hls =>
        injection h with h1 h2
        subst h2
        rw [heq]
        exact Or.inr rfl

lemma customerResolve_ev_none {c : Customer} (h : c.guid_first = none) :
    (customerResolve c).2 = [Event.customerCommit] := by
  unfold customerResolve
  rw [h]
  dsimp only
  rcases c.guid_second with _ | g <;> rfl

lemma customerResolve_ev_some {c : Customer} {g : String} (h : c.guid_first = some g) :
    (customerResolve c).2 = [] := by
  unfold customerResolve
  rw [h]

lemma assemble_counts {ρ : Type} {api : Api ρ} {inv : ExactInvoice}
    {r : Except AsmError Payload} {ev : List Event}
    (h : assemble api inv = (r, ev)) :
    countCreate ev = 0 ∧ countUpdate ev = 0 ∧ countWarn ev = 0 := by
  rcases assemble_ev_shape h with hev | hev <;>
    rcases customerResolve_events inv.customer with hc | hc <;>
      rw [hc] at hev <;> subst hev <;>
        exact ⟨rfl, rfl, rfl⟩

lemma countCustomerCommit_assemble {ρ : Type} {api : Api ρ} {inv : ExactInvoice}
    {r : Except AsmError Payload} {ev : List Event}
    (h : assemble api inv = (r, ev)) :
    countCustomerCommit ev = countCustomerCommit (customerResolve inv.customer).2 := by
  rcases assemble_ev_shape h with hev | hev <;> subst hev
  · rfl
  · rw [countCustomerCommit, List.countP_append]
    rfl

lemma countFilter_assemble {ρ : Type} {api : Api ρ} {inv : ExactInvoice}
    {r : Except AsmError Payload} {ev : List Event}
    (h : assemble api inv = (r, ev)) :
    countFilter ev = 0 ∨ countFilter ev = 1 := by
  rcases assemble_ev_shape h with hev | hev <;>
    rcases customerResolve_events inv.customer with hc | hc <;>
      rw [hc] at hev <;> subst hev
  · exact Or.inl rfl
  · exact Or.inl rfl
  · exact Or.inr rfl
  · exact Or.inr rfl

end EO

namespace EO

/-- Claim C5: every monetary field of a successfully assembled payload
(AmountDC, AmountFC, VATAmountDC, VATAmountFC, and each line's AmountDC
and AmountFC) is the exact decimal string of the corresponding decimal
input, produced with no intermediate floating-point value. -/
theorem C5_monetary_exact_decimal_strings {ρ : Type} (api : Api ρ) (inv : ExactInvoice)
    (p : Payload) (ev : List Event)
    (h : assemble api inv = (Except.ok p, ev)) :
    p.AmountDC = decStr inv.total_amount_incl_vat ∧
    p.AmountFC = decStr inv.total_amount_incl_vat ∧
    p.VATAmountDC = decStr inv.total_vat ∧
    p.VATAmountFC = decStr inv.total_vat ∧
    ∀ (i : Nat) (hip : i < p.SalesEntryLines.length)
      (hil : i < inv.ledger_lines.length),
      (p.SalesEntryLines.get ⟨i, hip⟩).AmountDC =
        decStr (inv.ledger_lines.get ⟨i, hil⟩).total_amount_excl_vat ∧
      (p.SalesEntryLines.get ⟨i, hip⟩).AmountFC =
        decStr (inv.ledger_lines.get ⟨i, hil⟩).total_amount_excl_vat := by
  rcases assemble_ok_cases h with ⟨cg, cev, hcr, hcase⟩
  rcases hcase with ⟨hnil, hp, _⟩ | ⟨hne, ls, hls, hp, _⟩
  · subst hp
    refine ⟨rfl, rfl, rfl, rfl, ?_⟩
    intro i hip hil
    exact absurd hip (by simp [basePayload])
  · subst hp
    refine ⟨rfl, rfl, rfl, rfl, ?_⟩
    intro i hip hil
    have hg := processLines_get hls i hil hip
    have hspec := processLine_ok_spec hg
    exact ⟨hspec.2.1, hspec.2.2.1⟩

/-- Claim C6: EntryDate of a successfully assembled payload is the
created date rendered as an ISO-8601 timestamp at midnight with a
literal Z suffix, and ReportingPeriod and ReportingYear are the created
date's month and year. -/
theorem C6_entry_date_and_reporting {ρ : Type} (api : Api ρ) (inv : ExactInvoice)
    (p : Payload) (ev : List Event)
    (h : assemble api inv = (Except.ok p, ev)) :
    p.EntryDate = entryDateStr inv.created_date ∧
    p.EntryDate =
      toString inv.created_date.year ++ "-" ++ pad2 inv.created_date.month ++ "-" ++
        pad2 inv.created_date.day ++ "T00:00:00Z" ∧
    p.ReportingPeriod = inv.created_date.month ∧
    p.ReportingYear = inv.created_date.year := by
  rcases assemble_ok_cases h with ⟨cg, cev, hcr, hcase⟩
  rcases hcase with ⟨_, hp, _⟩ | ⟨_, ls, _, hp, _⟩ <;> subst hp <;>
    exact ⟨rfl, rfl, rfl, rfl⟩

/-- Claim C10: a successfully assembled payload has exactly one
SalesEntryLines entry per ledger line, in the same order (the i-th
entry is the processed i-th ledger line), each entry's AmountDC and
AmountFC are the decimal string of that line's VAT-exclusive amount,
and the top-level AmountDC and AmountFC are the VAT-inclusive total. -/
theorem C10_one_entry_per_line_in_order {ρ : Type} (api : Api ρ) (inv : ExactInvoice)
    (p : Payload) (ev : List Event)
    (h : assemble api inv = (Except.ok p, ev)) :
    p.SalesEntryLines.length = inv.ledger_lines.length ∧
    p.AmountDC = decStr inv.total_amount_incl_vat ∧
    p.AmountFC = decStr inv.total_amount_incl_vat ∧
    ∀ (i : Nat) (hil : i < inv.ledger_lines.length)
      (hip : i < p.SalesEntryLines.length),
      processLine (lookupOf api inv) (inv.ledger_lines.get ⟨i, hil⟩) =
        Except.ok (p.SalesEntryLines.get ⟨i, hip⟩) ∧
      (p.SalesEntryLines.get ⟨i, hip⟩).AmountDC =
        decStr (inv.ledger_lines.get ⟨i, hil⟩).total_amount_excl_vat ∧
      (p.SalesEntryLines.get ⟨i, hip⟩).AmountFC =
        decStr (inv.ledger_lines.get ⟨i, hil⟩).total_amount_excl_vat ∧
      (p.SalesEntryLines.get ⟨i, hip⟩).Description =
        (inv.ledger_lines.get ⟨i, hil⟩).description := by
  rcases assemble_ok_cases h with ⟨cg, cev, hcr, hcase⟩
  rcases hcase with ⟨hnil, hp, _⟩ | ⟨hne, ls, hls, hp, _⟩
  · subst hp
    refine ⟨by rw [hnil]; rfl, rfl, rfl, ?_⟩
    intro i hil hip
    exact absurd hip (by simp [basePayload])
  · subst hp
    refine ⟨processLines_length hls, rfl, rfl, ?_⟩
    intro i hil hip
    have hg := processLines_get hls i hil hip
    have hspec := processLine_ok_spec hg
    exact ⟨hg, hspec.2.1, hspec.2.2.1, hspec.2.2.2.1⟩

/-- Claim C2: for a ledger line whose code resolves, a VAT percentage
of 0 yields the fixed code "0  " and 21 yields "2  ", while any other
percentage raises NotImplementedError; consequently a successful
assemble() run only ever contains lines with VAT percentage 0 or 21. -/
theorem C2_vatcode_finite_mapping :
    (∀ (lookup : String → Option String) (l : LedgerLine) (g : String),
        lookup l.code = some g →
        (l.vat_percentage = 0 →
          ∃ s, processLine lookup l = Except.ok s ∧ s.VATCode = "0  ") ∧
        (l.vat_percentage = 21 →
          ∃ s, processLine lookup l = Except.ok s ∧ s.VATCode = "2  ") ∧
        (l.vat_percentage ≠ 0 → l.vat_percentage ≠ 21 →
          processLine lookup l = Except.error (AsmError.notImplementedError
            ("Unknown VAT: " ++ toString l.vat_percentage)))) ∧
    (∀ (ρ : Type) (api : Api ρ) (inv : ExactInvoice) (p : Payload) (ev : List Event),
        assemble api inv = (Except.ok p, ev) →
        ∀ l ∈ inv.ledger_lines, l.vat_percentage = 0 ∨ l.vat_percentage = 21) := by
  refine ⟨?_, ?_⟩
  · intro lookup l g hg
    refine ⟨?_, ?_, ?_⟩
    · intro hv
      refine ⟨{ AmountDC := decStr l.total_amount_excl_vat
                AmountFC := decStr l.total_amount_excl_vat
                Description := l.description
                GLAccount := g
                VATCode := "0  " }, ?_, rfl⟩
      unfold processLine
      rw [hg]
      dsimp only
      rw [if_pos hv]
    · intro hv
      have h0 : l.vat_percentage ≠ 0 := by omega
      refine ⟨{ AmountDC := decStr l.total_amount_excl_vat
                AmountFC := decStr l.total_amount_excl_vat
                Description := l.description
                GLAccount := g
                VATCode := "2  " }, ?_, rfl⟩
      unfold processLine
      rw [hg]
      dsimp only
      rw [if_neg h0, if_pos hv]
    · intro h0 h21
      exact processLine_bad_vat hg h0 h21
  · intro ρ api inv p ev h l hl
    rcases assemble_ok_cases h with ⟨cg, cev, hcr, hcase⟩
    rcases hcase with ⟨hnil, _, _⟩ | ⟨hne, ls, hls, _, _⟩
    · rw [hnil] at hl
      exact absurd hl (by simp)
    · rcases processLines_mem hls l hl with ⟨s, hs⟩
      rcases processLine_ok_spec hs with ⟨_, _, _, _, hv⟩
      rcases hv with ⟨hv, _⟩ | ⟨hv, _⟩
      · exact Or.inl hv
      · exact Or.inr hv

/-- Claim C7: on the concrete example invoice (INV-001, dated
2024-03-15, totals 121.00 and 21.00, one line of 100.00 at 21 percent
VAT on ledger code 1234) assemble() succeeds with
EntryDate 2024-03-15T00:00:00Z, ReportingPeriod 3, ReportingYear 2024
and exactly one SalesEntryLines entry whose VATCode is "2  ". -/
theorem C7_concrete_example :
    ∃ p, (assemble api7 inv7).1 = Except.ok p ∧
      p.EntryDate = "2024-03-15T00:00:00Z" ∧
      p.ReportingPeriod = 3 ∧
      p.ReportingYear = 2024 ∧
      p.SalesEntryLines.length = 1 ∧
      p.SalesEntryLines.map SalesEntryLine.VATCode = ["2  "] :=
  ⟨p7, by rw [assemble7], rfl, rfl, rfl, rfl, rfl⟩

end EO

namespace EO

lemma countCreate_append (a b : List Event) :
    countCreate (a ++ b) = countCreate a + countCreate b :=
  List.countP_append _ _ _

lemma countUpdate_append (a b : List Event) :
    countUpdate (a ++ b) = countUpdate a + countUpdate b :=
  List.countP_append _ _ _

lemma countWarn_append (a b : List Event) :
    countWarn (a ++ b) = countWarn a + countWarn b :=
  List.countP_append _ _ _

/-- Claim C4: when the first customer lookup fails with NotFound,
assemble() performs exactly one customer creation and uses the
re-retrieved identifier as the payload's Customer; when the first
lookup succeeds, no customer creation happens. -/
theorem C4_customer_created_once_on_notfound {ρ : Type} (api : Api ρ) (inv : ExactInvoice) :
    (inv.customer.guid_first = none →
      ∀ (r : Except AsmError Payload) (ev : List Event),
        assemble api inv = (r, ev) →
        countCustomerCommit ev = 1 ∧
        ∀ p, r = Except.ok p → inv.customer.guid_second = some p.Customer) ∧
    (∀ g, inv.customer.guid_first = some g →
      ∀ (r : Except AsmError Payload) (ev : List Event),
        assemble api inv = (r, ev) → countCustomerCommit ev = 0) := by
  refine ⟨?_, ?_⟩
  · intro hfirst r ev h
    refine ⟨?_, ?_⟩
    · rw [countCustomerCommit_assemble h, customerResolve_ev_none hfirst]
      rfl
    · rintro p rfl
      rcases assemble_ok_cases h with ⟨cg, cev, hcr, hcase⟩
      have hsec : inv.customer.guid_second = some cg := by
        rcases customerResolve_ok_cases hcr with ⟨hf, _⟩ | ⟨_, hs, _⟩
        · rw [hfirst] at hf
          exact Option.noConfusion hf
        · exact hs
      rcases hcase with ⟨_, hp, _⟩ | ⟨_, ls, _, hp, _⟩ <;> subst hp <;> exact hsec
  · intro g hfirst r ev h
    rw [countCustomerCommit_assemble h, customerResolve_ev_some hfirst]
    rfl

/-- Claim C1: commit() resolves the remote identifier first and calls
assemble() unconditionally (an assemble failure propagates after the
lookup); with no remote identifier (NotFound) it performs exactly one
invoices.create with the full payload, line items included, and
returns the created result; with a (truthy) remote identifier it pops
SalesEntryLines, performs exactly one invoices.update with the
remaining payload, emits one warning, and returns the update result. -/
theorem C1_commit_create_or_update {ρ : Type} (api : Api ρ) (inv : ExactInvoice) :
    (∀ (e : AsmError) (ev : List Event),
        assemble api inv = (Except.error e, ev) →
        commit api inv = (Except.error e, Event.invoicesGet inv.invoice_number :: ev)) ∧
    (api.invoices_get inv.invoice_number = none →
      ∀ (data : Payload) (ev : List Event),
        assemble api inv = (Except.ok data, ev) →
        commit api inv =
          (Except.ok (api.invoices_create data),
           Event.invoicesGet inv.invoice_number :: (ev ++ [Event.invoicesCreate data])) ∧
        countCreate (commit api inv).2 = 1 ∧
        countUpdate (commit api inv).2 = 0 ∧
        countWarn (commit api inv).2 = 0) ∧
    (∀ g, resolveGuid api inv = some g → g ≠ "" →
      ∀ (data : Payload) (ev : List Event),
        assemble api inv = (Except.ok data, ev) →
        commit api inv =
          (Except.ok (api.invoices_update g data.strip),
           Event.invoicesGet inv.invoice_number ::
             (ev ++ [Event.invoicesUpdate g data.strip, Event.warned warnMsg])) ∧
        countUpdate (commit api inv).2 = 1 ∧
        countCreate (commit api inv).2 = 0 ∧
        countWarn (commit api inv).2 = 1) := by
  refine ⟨?_, ?_, ?_⟩
  · intro e ev h
    unfold commit
    rw [h]
  · intro hget data ev h
    have hrg : resolveGuid api inv = none := by
      unfold resolveGuid
      rw [hget]
    have hc : commit api inv =
        (Except.ok (api.invoices_create data),
         Event.invoicesGet inv.invoice_number :: (ev ++ [Event.invoicesCreate data])) := by
      unfold commit
      rw [h]
      dsimp only
      rw [hrg]
    rcases assemble_counts h with ⟨h1, h2, h3⟩
    refine ⟨hc, ?_, ?_, ?_⟩ <;> rw [hc] <;>
      rw [show (Event.invoicesGet inv.invoice_number ::
            (ev ++ [Event.invoicesCreate data]) : List Event) =
          [Event.invoicesGet inv.invoice_number] ++ ev ++ [Event.invoicesCreate data] by simp]
    · rw [countCreate_append, countCreate_append, h1]
      rfl
    · rw [countUpdate_append, countUpdate_append, h2]
      rfl
    · rw [countWarn_append, countWarn_append, h3]
      rfl
  · intro g hg hne data ev h
    have hc : commit api inv =
        (Except.ok (api.invoices_update g data.strip),
         Event.invoicesGet inv.invoice_number ::
           (ev ++ [Event.invoicesUpdate g data.strip, Event.warned warnMsg])) := by
      unfold commit
      rw [h]
      dsimp only
      rw [hg]
      dsimp only
      rw [if_neg hne]
    rcases assemble_counts h with ⟨h1, h2, h3⟩
    refine ⟨hc, ?_, ?_, ?_⟩ <;> rw [hc] <;>
      rw [show (Event.invoicesGet inv.invoice_number ::
            (ev ++ [Event.invoicesUpdate g data.strip, Event.warned warnMsg]) : List Event) =
          [Event.invoicesGet inv.invoice_number] ++ ev ++
            [Event.invoicesUpdate g data.strip, Event.warned warnMsg] by simp]
    · rw [countUpdate_append, countUpdate_append, h2]
      rfl
    · rw [countCreate_append, countCreate_append, h1]
      rfl
    · rw [countWarn_append, countWarn_append, h3]
      rfl

/-- Claim C9: commit() branches on Python truthiness of the resolved
identifier, not only on NotFound: when invoices.get succeeds but the
record's EntryID is None or the empty string, commit() behaves exactly
as if the lookup had failed with NotFound, taking the create path with
the full payload including line items. -/
theorem C9_falsy_identifier_takes_create_path {ρ : Type} (api : Api ρ) (inv : ExactInvoice)
    (q : InvoiceRec) (hget : api.invoices_get inv.invoice_number = some q)
    (hid : q.EntryID = none ∨ q.EntryID = some "") :
    commit api inv =
      commit { invoices_get := fun _ => none
               ledgeraccounts_filter := api.ledgeraccounts_filter
               invoices_create := api.invoices_create
               invoices_update := api.invoices_update } inv ∧
    (∀ (data : Payload) (ev : List Event),
        assemble api inv = (Except.ok data, ev) →
        commit api inv =
          (Except.ok (api.invoices_create data),
           Event.invoicesGet inv.invoice_number :: (ev ++ [Event.invoicesCreate data]))) := by
  have hrg : resolveGuid api inv = q.EntryID := by
    unfold resolveGuid
    rw [hget]
  constructor
  · rcases hasm : assemble api inv with ⟨res, ev⟩
    have hasm2 : assemble
        { invoices_get := fun _ => none
          ledgeraccounts_filter := api.ledgeraccounts_filter
          invoices_create := api.invoices_create
          invoices_update := api.invoices_update } inv = (res, ev) := hasm
    unfold commit
    rw [hasm, hasm2]
    cases res with
    | error e => rfl
    | ok data =>
      dsimp only
      rw [hrg]
      rcases hid with hid | hid <;> rw [hid] <;> rfl
  · intro data ev h
    unfold commit
    rw [h]
    dsimp only
    rw [hrg]
    rcases hid with hid | hid <;> (rw [hid]; try rfl)

end EO

namespace EO

lemma countFilter_append (a b : List Event) :
    countFilter (a ++ b) = countFilter a + countFilter b :=
  List.countP_append _ _ _

lemma assemble_with_lines_fail {ρ : Type} {api : Api ρ} {inv : ExactInvoice}
    {cg : String} {cev : List Event} {e : AsmError}
    (hcr : customerResolve inv.customer = (Except.ok cg, cev))
    (hne : inv.ledger_lines ≠ [])
    (hpl : processLines (lookupOf api inv) inv.ledger_lines = Except.error e) :
    assemble api inv =
      (Except.error e, cev ++ [Event.ledgerFilter (filterCodes inv)]) := by
  unfold assemble
  rw [hcr]
  dsimp only
  cases hx : inv.ledger_lines with
  | nil => exact absurd hx hne
  | cons x xs =>
    rw [hx] at hpl
    rw [hpl]

lemma assemble_ev_of_lines {ρ : Type} {api : Api ρ} {inv : ExactInvoice}
    {cg : String} {cev : List Event} {r : Except AsmError Payload} {ev : List Event}
    (hcr : customerResolve inv.customer = (Except.ok cg, cev))
    (hne : inv.ledger_lines ≠ [])
    (h : assemble api inv = (r, ev)) :
    ev = cev ++ [Event.ledgerFilter (filterCodes inv)] := by
  unfold assemble at h
  rw [hcr] at h
  dsimp only at h
  cases hx : inv.ledger_lines with
  | nil => exact absurd hx hne
  | cons x xs =>
    rw [hx] at h
    dsimp only at h
    split at h
    next => injection h with h1 h2; exact h2.symm
    next => injection h with h1 h2; exact h2.symm

/-- The customer of the C3 counterexample invoice (already remote). -/
def cust3 : Customer := { name := "ACME", guid_first := some "CG-3", guid_second := none }

/-- A line whose code resolves but whose VAT percentage is unsupported. -/
def line3a : LedgerLine :=
  { code := "a", vat_percentage := 5, total_amount_excl_vat := dExcl, description := "x" }

/-- A line whose code does not resolve in the batched lookup. -/
def line3b : LedgerLine :=
  { code := "b", vat_percentage := 21, total_amount_excl_vat := dExcl, description := "y" }

/-- Invoice with an unsupported-VAT line before an unresolvable-code line. -/
def inv3 : ExactInvoice :=
  { invoice_number := "INV-3"
    created_date := { year := 2024, month := 1, day := 2 }
    total_amount_incl_vat := dIncl
    total_vat := dVat
    exact_journal := "70"
    ledger_lines := [line3a, line3b]
    customer := cust3
    hint_exact_invoice_number := "INV-3" }

/-- An API whose ledger filter only knows code a, not code b. -/
def api3 : Api Unit :=
  { invoices_get := fun _ => none
    ledgeraccounts_filter := fun _ => [{ Code := "a", ID := "GL-A" }]
    invoices_create := fun _ => ()
    invoices_update := fun _ _ => () }

/-- Claim C3 counterexample: on inv3 the code of line b is absent from
the batched lookup result, yet assemble() fails with the
NotImplementedError of the earlier unsupported-VAT line a, not with the
unresolvable-reference ExactOnlineError the claim requires. -/
theorem C3_counterexample_earlier_vat_error_preempts :
    lookupOf api3 inv3 "b" = none ∧
    line3b ∈ inv3.ledger_lines ∧
    line3b.code = "b" ∧
    assemble api3 inv3 =
      (Except.error (AsmError.notImplementedError "Unknown VAT: 5"),
       [Event.ledgerFilter ["a", "b"]]) :=
  ⟨rfl, by decide, rfl, rfl⟩

/-- Claim C3 (amended): a line code absent from the batched lookup
means assemble() produces no payload (the whole assembly aborts); and
whenever the absent-code line is the first failing line — customer
resolution succeeded and every earlier line resolves with a supported
VAT percentage — the failure is the unresolvable-reference
ExactOnlineError. -/
theorem C3_amended_unresolvable_code_aborts {ρ : Type} (api : Api ρ) (inv : ExactInvoice) :
    (∀ (p : Payload) (ev : List Event),
        assemble api inv = (Except.ok p, ev) →
        ∀ l ∈ inv.ledger_lines, lookupOf api inv l.code ≠ none) ∧
    (∀ (cg : String) (cev : List Event) (pre : List LedgerLine) (l : LedgerLine)
        (rest : List LedgerLine),
        customerResolve inv.customer = (Except.ok cg, cev) →
        inv.ledger_lines = pre ++ l :: rest →
        (∀ x ∈ pre, (lookupOf api inv x.code).isSome ∧
          (x.vat_percentage = 0 ∨ x.vat_percentage = 21)) →
        lookupOf api inv l.code = none →
        assemble api inv =
          (Except.error (AsmError.exactOnlineError
            ("Cannot submit invoice with ledger code " ++ l.code)),
           cev ++ [Event.ledgerFilter (filterCodes inv)])) := by
  refine ⟨?_, ?_⟩
  · intro p ev h l hl
    rcases assemble_ok_cases h with ⟨cg, cev, hcr, hcase⟩
    rcases hcase with ⟨hnil, _, _⟩ | ⟨hne, ls, hls, _, _⟩
    · rw [hnil] at hl
      exact absurd hl (by simp)
    · rcases processLines_mem hls l hl with ⟨s, hs⟩
      rcases processLine_ok_spec hs with ⟨hg, _⟩
      rw [hg]
      exact Option.noConfusion
  · intro cg cev pre l rest hcr hlines hpre hl
    have hne : inv.ledger_lines ≠ [] := by
      rw [hlines]
      cases pre <;> simp
    have hpl : processLines (lookupOf api inv) inv.ledger_lines =
        Except.error (AsmError.exactOnlineError
          ("Cannot submit invoice with ledger code " ++ l.code)) := by
      rw [hlines]
      exact processLines_fail_at hpre hl
    exact assemble_with_lines_fail hcr hne hpl

/-- A customer whose remote record does not exist and whose creation
does not make a later lookup succeed either. -/
def custN : Customer := { name := "NOCUST", guid_first := none, guid_second := none }

/-- Invoice with one ledger line but an unresolvable customer. -/
def inv8 : ExactInvoice :=
  { invoice_number := "INV-8"
    created_date := { year := 2024, month := 1, day := 2 }
    total_amount_incl_vat := dIncl
    total_vat := dVat
    exact_journal := "70"
    ledger_lines := [line3b]
    customer := custN
    hint_exact_invoice_number := "INV-8" }

/-- An API with an empty ledger filter result. -/
def api8 : Api Unit :=
  { invoices_get := fun _ => none
    ledgeraccounts_filter := fun _ => []
    invoices_create := fun _ => ()
    invoices_update := fun _ _ => () }

/-- Claim C8 counterexample: inv8 has a non-empty ledger line sequence,
yet assemble() performs zero ledgeraccounts.filter calls, because the
customer resolution aborts with NotFound first. -/
theorem C8_counterexample_customer_failure_skips_lookup :
    inv8.ledger_lines ≠ [] ∧
    assemble api8 inv8 =
      (Except.error AsmError.objectDoesNotExist, [Event.customerCommit]) ∧
    countFilter [Event.customerCommit] = 0 :=
  ⟨by decide, rfl, rfl⟩

/-- Claim C8 (amended): for a non-empty ledger line sequence, provided
customer resolution succeeds, assemble() performs exactly one
ledgeraccounts.filter call and passes the distinct ledger codes of the
lines (duplicate-free, same membership); for an empty sequence it
performs no such call and a successful payload has empty
SalesEntryLines. -/
theorem C8_amended_single_batched_lookup {ρ : Type} (api : Api ρ) (inv : ExactInvoice) :
    (inv.ledger_lines ≠ [] →
      ∀ (cg : String) (cev : List Event),
        customerResolve inv.customer = (Except.ok cg, cev) →
        ∀ (r : Except AsmError Payload) (ev : List Event),
          assemble api inv = (r, ev) →
          countFilter ev = 1 ∧
          Event.ledgerFilter (filterCodes inv) ∈ ev ∧
          (filterCodes inv).Nodup ∧
          (∀ c, c ∈ filterCodes inv ↔ c ∈ inv.ledger_lines.map LedgerLine.code)) ∧
    (inv.ledger_lines = [] →
      ∀ (r : Except AsmError Payload) (ev : List Event),
        assemble api inv = (r, ev) →
        countFilter ev = 0 ∧ ∀ p, r = Except.ok p → p.SalesEntryLines = []) := by
  refine ⟨?_, ?_⟩
  · intro hne cg cev hcr r ev h
    have hev := assemble_ev_of_lines hcr hne h
    subst hev
    have hcev : countFilter cev = 0 := by
      rcases customerResolve_ok_cases hcr with ⟨_, hc⟩ | ⟨_, _, hc⟩ <;> subst hc <;> rfl
    refine ⟨?_, ?_, dedupFirst_nodup _, fun c => mem_dedupFirst⟩
    · rw [countFilter_append, hcev]
      rfl
    · simp
  · intro hnil r ev h
    unfold assemble at h
    split at h
    next e cev heq =>
      injection h with h1 h2
      subst h2
      refine ⟨?_, ?_⟩
      · have hev := customerResolve_events inv.customer
        rw [heq] at hev
        rcases hev with hev | hev <;> dsimp only at hev <;> subst hev <;> rfl
      · rintro p hp
        rw [← h1] at hp
        exact Except.noConfusion hp
    next cg cev heq =>
      rw [hnil] at h
      dsimp only at h
      injection h with h1 h2
      subst h2
      refine ⟨?_, ?_⟩
      · have hev := customerResolve_events inv.customer
        rw [heq] at hev
        rcases hev with hev | hev <;> dsimp only at hev <;> subst hev <;> rfl
      · rintro p hp
        rw [← h1] at hp
        injection hp with hp
        rw [← hp]
        rfl

end EO

namespace EO

/-- A customer that already exists remotely (for witnesses). -/
def custA : Customer := { name := "ACME-A", guid_first := some "CG-A", guid_second := none }

/-- A minimal invoice with no ledger lines and an existing customer. -/
def invA : ExactInvoice :=
  { invoice_number := "INV-A"
    created_date := { year := 2024, month := 1, day := 2 }
    total_amount_incl_vat := dIncl
    total_vat := dVat
    exact_journal := "70"
    ledger_lines := []
    customer := custA
    hint_exact_invoice_number := "INV-A" }

/-- An API where the invoice number lookup fails with NotFound. -/
def apiNone : Api Unit :=
  { invoices_get := fun _ => none
    ledgeraccounts_filter := fun _ => []
    invoices_create := fun _ => ()
    invoices_update := fun _ _ => () }

/-- An API where the invoice number lookup yields a truthy EntryID. -/
def apiB : Api Unit :=
  { invoices_get := fun _ => some { EntryID := some "GUID-X" }
    ledgeraccounts_filter := fun _ => []
    invoices_create := fun _ => ()
    invoices_update := fun _ _ => () }

/-- An API where the invoice number lookup yields an empty-string
EntryID (falsy but not NotFound). -/
def apiE : Api Unit :=
  { invoices_get := fun _ => some { EntryID := some "" }
    ledgeraccounts_filter := fun _ => []
    invoices_create := fun _ => ()
    invoices_update := fun _ _ => () }

/-- A customer created on demand: first lookup NotFound, the lookup
after commit succeeds. -/
def custC : Customer := { name := "NEWCO", guid_first := none, guid_second := some "CG-C" }

/-- Invoice with no ledger lines and an initially missing customer. -/
def invC : ExactInvoice :=
  { invoice_number := "INV-C"
    created_date := { year := 2024, month := 1, day := 2 }
    total_amount_incl_vat := dIncl
    total_vat := dVat
    exact_journal := "70"
    ledger_lines := []
    customer := custC
    hint_exact_invoice_number := "INV-C" }

/-- A concrete line with 21 percent VAT. -/
def lineW21 : LedgerLine :=
  { code := "w", vat_percentage := 21, total_amount_excl_vat := dExcl, description := "w21" }

/-- A concrete line with 0 percent VAT. -/
def lineW0 : LedgerLine :=
  { code := "w", vat_percentage := 0, total_amount_excl_vat := dExcl, description := "w0" }

/-- A concrete line with an unsupported 5 percent VAT. -/
def lineW5 : LedgerLine :=
  { code := "w", vat_percentage := 5, total_amount_excl_vat := dExcl, description := "w5" }

/-- A resolvable, supported first line (for the C3 amended witness). -/
def lineD1 : LedgerLine :=
  { code := "good", vat_percentage := 21, total_amount_excl_vat := dExcl, description := "g" }

/-- A line whose code the C3 amended witness API cannot resolve. -/
def lineD2 : LedgerLine :=
  { code := "miss", vat_percentage := 0, total_amount_excl_vat := dExcl, description := "m" }

/-- Invoice whose second line has an unresolvable code. -/
def invD : ExactInvoice :=
  { invoice_number := "INV-D"
    created_date := { year := 2024, month := 1, day := 2 }
    total_amount_incl_vat := dIncl
    total_vat := dVat
    exact_journal := "70"
    ledger_lines := [lineD1, lineD2]
    customer := { name := "ACME-D", guid_first := some "CG-D", guid_second := none }
    hint_exact_invoice_number := "INV-D" }

/-- An API whose ledger filter only resolves the code good. -/
def apiD : Api Unit :=
  { invoices_get := fun _ => none
    ledgeraccounts_filter := fun _ => [{ Code := "good", ID := "GL-G" }]
    invoices_create := fun _ => ()
    invoices_update := fun _ _ => () }

/-- Witness for C1: on a concrete invoice, the NotFound API takes the
create path and the truthy-guid API takes the update path with the
stripped payload and a warning. -/
theorem C1_commit_create_or_update_witness :
    commit apiNone invA =
      (Except.ok (), Event.invoicesGet "INV-A" ::
        ([] ++ [Event.invoicesCreate (basePayload invA "CG-A")])) ∧
    commit apiB invA =
      (Except.ok (), Event.invoicesGet "INV-A" ::
        ([] ++ [Event.invoicesUpdate "GUID-X" (Payload.strip (basePayload invA "CG-A")),
                Event.warned warnMsg])) :=
  ⟨((C1_commit_create_or_update apiNone invA).2.1 rfl
      (basePayload invA "CG-A") [] rfl).1,
   ((C1_commit_create_or_update apiB invA).2.2 "GUID-X" rfl (by decide)
      (basePayload invA "CG-A") [] rfl).1⟩

/-- Witness for C2 at concrete lines with VAT 21, 0 and 5. -/
theorem C2_vatcode_finite_mapping_witness :
    (∃ s, processLine (fun _ => some "G") lineW21 = Except.ok s ∧ s.VATCode = "2  ") ∧
    (∃ s, processLine (fun _ => some "G") lineW0 = Except.ok s ∧ s.VATCode = "0  ") ∧
    processLine (fun _ => some "G") lineW5 =
      Except.error (AsmError.notImplementedError "Unknown VAT: 5") :=
  ⟨(C2_vatcode_finite_mapping.1 (fun _ => some "G") lineW21 "G" rfl).2.1 rfl,
   (C2_vatcode_finite_mapping.1 (fun _ => some "G") lineW0 "G" rfl).1 rfl,
   (C2_vatcode_finite_mapping.1 (fun _ => some "G") lineW5 "G" rfl).2.2
     (by decide) (by decide)⟩

/-- Witness for the amended C3 on a concrete invoice whose second line
has an unresolvable code after a supported first line. -/
theorem C3_amended_unresolvable_code_aborts_witness :
    assemble apiD invD =
      (Except.error (AsmError.exactOnlineError
        "Cannot submit invoice with ledger code miss"),
       [Event.ledgerFilter ["good", "miss"]]) :=
  (C3_amended_unresolvable_code_aborts apiD invD).2 "CG-D" [] [lineD1] lineD2 []
    rfl rfl (by decide) rfl

/-- Witness for C4: the NotFound customer is created exactly once and
its re-resolved identifier lands in the payload; an existing customer
is never created. -/
theorem C4_customer_created_once_on_notfound_witness :
    countCustomerCommit [Event.customerCommit] = 1 ∧
    custC.guid_second = some (basePayload invC "CG-C").Customer ∧
    countCustomerCommit ([] : List Event) = 0 := by
  have h1 := (C4_customer_created_once_on_notfound apiNone invC).1 rfl
      (Except.ok (basePayload invC "CG-C")) [Event.customerCommit] rfl
  have h2 := (C4_customer_created_once_on_notfound apiNone invA).2 "CG-A" rfl
      (Except.ok (basePayload invA "CG-A")) [] rfl
  exact ⟨h1.1, h1.2 (basePayload invC "CG-C") rfl, h2⟩

/-- Witness for C5 on the concrete example payload. -/
theorem C5_monetary_exact_decimal_strings_witness :
    p7.AmountDC = decStr dIncl ∧
    p7.AmountFC = decStr dIncl ∧
    p7.VATAmountDC = decStr dVat ∧
    p7.VATAmountFC = decStr dVat ∧
    (p7.SalesEntryLines.get ⟨0, by decide⟩).AmountDC = decStr dExcl := by
  have h := C5_monetary_exact_decimal_strings api7 inv7 p7
      [Event.ledgerFilter ["1234"]] assemble7
  exact ⟨h.1, h.2.1, h.2.2.1, h.2.2.2.1, (h.2.2.2.2 0 (by decide) (by decide)).1⟩

/-- Witness for C6 on the concrete example payload. -/
theorem C6_entry_date_and_reporting_witness :
    p7.EntryDate = entryDateStr { year := 2024, month := 3, day := 15 } ∧
    p7.ReportingPeriod = 3 ∧
    p7.ReportingYear = 2024 := by
  have h := C6_entry_date_and_reporting api7 inv7 p7
      [Event.ledgerFilter ["1234"]] assemble7
  exact ⟨h.1, h.2.2.1, h.2.2.2⟩

/-- Witness for the amended C8: one filter call with the distinct codes
on the example invoice; no filter call and empty lines on an invoice
without ledger lines. -/
theorem C8_amended_single_batched_lookup_witness :
    countFilter [Event.ledgerFilter ["1234"]] = 1 ∧
    Event.ledgerFilter (filterCodes inv7) ∈ [Event.ledgerFilter ["1234"]] ∧
    (filterCodes inv7).Nodup ∧
    countFilter ([] : List Event) = 0 ∧
    (basePayload invA "CG-A").SalesEntryLines = [] := by
  have h1 := (C8_amended_single_batched_lookup api7 inv7).1 (by decide)
      "CUST-GUID" [] rfl (Except.ok p7) [Event.ledgerFilter ["1234"]] assemble7
  have h2 := (C8_amended_single_batched_lookup apiNone invA).2 rfl
      (Except.ok (basePayload invA "CG-A")) [] rfl
  exact ⟨h1.1, h1.2.1, h1.2.2.1, h2.1, h2.2 (basePayload invA "CG-A") rfl⟩

/-- Witness for C9: an empty-string EntryID behaves exactly like
NotFound and takes the create path. -/
theorem C9_falsy_identifier_takes_create_path_witness :
    commit apiE invA =
      commit { invoices_get := fun _ => none
               ledgeraccounts_filter := apiE.ledgeraccounts_filter
               invoices_create := apiE.invoices_create
               invoices_update := apiE.invoices_update } invA ∧
    commit apiE invA =
      (Except.ok (), Event.invoicesGet "INV-A" ::
        ([] ++ [Event.invoicesCreate (basePayload invA "CG-A")])) :=
  ⟨(C9_falsy_identifier_takes_create_path apiE invA { EntryID := some "" }
      rfl (Or.inr rfl)).1,
   (C9_falsy_identifier_takes_create_path apiE invA { EntryID := some "" }
      rfl (Or.inr rfl)).2 (basePayload invA "CG-A") [] rfl⟩

/-- Witness for C10 on the concrete example payload. -/
theorem C10_one_entry_per_line_in_order_witness :
    p7.SalesEntryLines.length = inv7.ledger_lines.length ∧
    processLine (lookupOf api7 inv7) (inv7.ledger_lines.get ⟨0, by decide⟩) =
      Except.ok (p7.SalesEntryLines.get ⟨0, by decide⟩) ∧
    (p7.SalesEntryLines.get ⟨0, by decide⟩).Description = "Goods" := by
  have h := C10_one_entry_per_line_in_order api7 inv7 p7
      [Event.ledgerFilter ["1234"]] assemble7
  have h0 := h.2.2.2 0 (by decide) (by decide)
  exact ⟨h.1, h0.1, h0.2.2.2⟩

end EO
